import Mathlib

/-!
Verification of the `context-circuit-breaker` library (`src/breaker.js`, with a
TypeScript port in `src/`).  The breaker is shallowly embedded: its mutable
fields become a `Breaker` record, every method becomes a pure function on that
record, and the asynchronous completions (context build, command settlement,
timer firings) become explicit events applied to the record.  JavaScript
numbers are modelled as `Nat` for the counters and thresholds and as `ℚ` for
the error-percentage computation.
-/

namespace CCB

/-- Opaque context values handed out by the context builder. -/
abbrev Ctx := Nat

/-- Opaque result values returned by commands and fallbacks. -/
abbrev Val := Nat

/-- The four breaker states (`OPEN`, `HALF_OPEN`, `HALF_OPEN_VERIFY`, `CLOSE`). -/
inductive St
  | OPEN
  | HALF_OPEN
  | HALF_OPEN_VERIFY
  | CLOSE
  deriving DecidableEq, Repr

/-- Error kinds flowing through the breaker: `ContextCircuitBreakerOpenError`,
`ContextCircuitBreakerTimeoutError`, and an arbitrary error raised by the
command or fallback itself (payload kept opaque as a `Nat`). -/
inductive Err
  | openErr
  | timeoutErr
  | cmdErr (payload : Nat)
  deriving DecidableEq, Repr

/-- The per-window counter record created by `_newCounters`. -/
structure Counters where
  timeouts : Nat
  failures : Nat
  successes : Nat
  shortCircuits : Nat
  deriving DecidableEq, Repr

/-- The breaker's mutable fields.  `state` is an `Option` because the
TypeScript `destroy` assigns `null` to it; the JavaScript version never does.
The two timer handles are modelled by whether a timer is currently pending,
and `_trying` is the single-flight guard of `_tryTransitToHalfOpen`. -/
structure Breaker where
  windowDuration : Nat
  timeoutDuration : Nat
  errorThreshold : Nat
  volumeThreshold : Nat
  state : Option St
  context : Option Ctx
  counters : Counters
  resetTimerOn : Bool
  nextTryTimerOn : Bool
  trying : Bool
  listeners : Bool
  deriving DecidableEq, Repr

/-- `_newCounters()`. -/
def _newCounters : Counters :=
  { timeouts := 0, failures := 0, successes := 0, shortCircuits := 0 }

/-- The metrics record produced by `_calculateMetrics`. -/
structure Metrics where
  totalCount : Nat
  errorCount : Nat
  errorPercentage : ℚ

/-- `_calculateMetrics()`: `errorCount = timeouts + failures`,
`totalCount = errorCount + successes`,
`errorPercentage = (errorCount / (totalCount > 0 ? totalCount : 1)) * 100`. -/
def _calculateMetrics (c : Counters) : Metrics :=
  let errorCount := c.timeouts + c.failures
  let totalCount := errorCount + c.successes
  let errorPercentage : ℚ :=
    ((errorCount : ℚ) / (if totalCount > 0 then (totalCount : ℚ) else 1)) * 100
  { totalCount := totalCount, errorCount := errorCount, errorPercentage := errorPercentage }

/-- `_scheduleTryTransitToHalfOpen()`: a no-op when a probe timer is already
pending or the state is not `OPEN`; otherwise arms the probe timer. -/
def _scheduleTryTransitToHalfOpen (b : Breaker) : Breaker :=
  if b.nextTryTimerOn ∨ b.state ≠ some St.OPEN then b
  else { b with nextTryTimerOn := true }

/-- `_cleanContext()`: fires the context cleaner (an external effect) and
clears the stored context immediately. -/
def _cleanContext (b : Breaker) : Breaker :=
  { b with context := none }

/-- `_transitToOpen()`: clean the context, set state to `OPEN`, schedule the
next probe. -/
def _transitToOpen (b : Breaker) : Breaker :=
  _scheduleTryTransitToHalfOpen { _cleanContext b with state := some St.OPEN }

/-- `_transitToClose()`: set state to `CLOSE`. -/
def _transitToClose (b : Breaker) : Breaker :=
  { b with state := some St.CLOSE }

/-- The breach condition computed inside `_updateState`:
`overVolumeThreshold && overErrorThreshold`. -/
def _overThreshold (b : Breaker) : Prop :=
  let m := _calculateMetrics b.counters
  m.totalCount > b.volumeThreshold ∧ m.errorPercentage > (b.errorThreshold : ℚ)

instance (b : Breaker) : Decidable (_overThreshold b) := by
  unfold _overThreshold
  exact instDecidableAnd

/-- `_updateState()`: a no-op unless the state is `CLOSE`; otherwise transitions
to `OPEN` exactly when the breach condition holds. -/
def _updateState (b : Breaker) : Breaker :=
  if b.state = some St.CLOSE then
    if _overThreshold b then _transitToOpen b else b
  else b

theorem _scheduleTryTransitToHalfOpen_state (b : Breaker) :
    (_scheduleTryTransitToHalfOpen b).state = b.state := by
  unfold _scheduleTryTransitToHalfOpen
  split <;> rfl

theorem _scheduleTryTransitToHalfOpen_context (b : Breaker) :
    (_scheduleTryTransitToHalfOpen b).context = b.context := by
  unfold _scheduleTryTransitToHalfOpen
  split <;> rfl

theorem _scheduleTryTransitToHalfOpen_counters (b : Breaker) :
    (_scheduleTryTransitToHalfOpen b).counters = b.counters := by
  unfold _scheduleTryTransitToHalfOpen
  split <;> rfl

theorem _transitToOpen_state (b : Breaker) :
    (_transitToOpen b).state = some St.OPEN := by
  unfold _transitToOpen
  rw [_scheduleTryTransitToHalfOpen_state]

theorem _transitToOpen_context (b : Breaker) :
    (_transitToOpen b).context = none := by
  unfold _transitToOpen
  rw [_scheduleTryTransitToHalfOpen_context]
  rfl

theorem _transitToOpen_counters (b : Breaker) :
    (_transitToOpen b).counters = b.counters := by
  unfold _transitToOpen
  rw [_scheduleTryTransitToHalfOpen_counters]
  rfl

/-- C1: breach evaluation (`_updateState`) is a no-op when the state is not
`CLOSE`, and when it is `CLOSE` it moves the breaker to `OPEN` exactly when
`errorCount = timeouts + failures`, `totalCount = errorCount + successes`
satisfy both `totalCount > volumeThreshold` and
`(errorCount / max(totalCount,1)) * 100 > errorThreshold` (strict comparisons;
`shortCircuits` does not appear in either count). -/
theorem updateState_breach_iff (b : Breaker) :
    (b.state ≠ some St.CLOSE → _updateState b = b) ∧
    (b.state = some St.CLOSE →
      ((_updateState b).state = some St.OPEN ↔
        (b.counters.timeouts + b.counters.failures + b.counters.successes >
            b.volumeThreshold ∧
          ((b.counters.timeouts + b.counters.failures : ℚ) /
              ((max (b.counters.timeouts + b.counters.failures +
                b.counters.successes) 1 : Nat) : ℚ)) * 100 >
            (b.errorThreshold : ℚ)))) := by
  constructor
  · intro h
    unfold _updateState
    simp [h]
  · intro h
    have hmax : ∀ t : Nat,
        (if t > 0 then (t : ℚ) else 1) = ((max t 1 : Nat) : ℚ) := by
      intro t
      rcases Nat.eq_zero_or_pos t with h0 | h0
      · subst h0; norm_num
      · have : max t 1 = t := Nat.max_eq_left h0
        simp [h0, this]
    have hover : _overThreshold b ↔
        (b.counters.timeouts + b.counters.failures + b.counters.successes >
            b.volumeThreshold ∧
          ((b.counters.timeouts + b.counters.failures : ℚ) /
              ((max (b.counters.timeouts + b.counters.failures +
                b.counters.successes) 1 : Nat) : ℚ)) * 100 >
            (b.errorThreshold : ℚ)) := by
      unfold _overThreshold _calculateMetrics
      simp only [hmax]
      simp only [Nat.cast_add]
    unfold _updateState
    rw [if_pos h]
    by_cases hb : _overThreshold b
    · rw [if_pos hb]
      exact iff_of_true (_transitToOpen_state b) (hover.mp hb)
    · rw [if_neg hb]
      apply iff_of_false
      · rw [h]
        intro hcontr
        exact St.noConfusion (Option.some.inj hcontr)
      · intro hclaim
        exact hb (hover.mpr hclaim)

/-- Witness for C1: a concrete `CLOSE` breaker with 4 errors and 2 successes
against the default thresholds (50%, 5) does breach and lands in `OPEN`. -/
theorem updateState_breach_iff_witness :
    (_updateState
      { windowDuration := 10000, timeoutDuration := 300,
        errorThreshold := 50, volumeThreshold := 5,
        state := some St.CLOSE, context := some 7,
        counters := { timeouts := 1, failures := 3, successes := 2, shortCircuits := 9 },
        resetTimerOn := true, nextTryTimerOn := false,
        trying := false, listeners := true }).state = some St.OPEN := by
  have h := (updateState_breach_iff
    { windowDuration := 10000, timeoutDuration := 300,
      errorThreshold := 50, volumeThreshold := 5,
      state := some St.CLOSE, context := some 7,
      counters := { timeouts := 1, failures := 3, successes := 2, shortCircuits := 9 },
      resetTimerOn := true, nextTryTimerOn := false,
      trying := false, listeners := true }).2 rfl
  exact h.mpr (by norm_num)

/-- Notifications emitted by the breaker that the claims observe. -/
inductive Event
  | fallbackEv (e : Err)
  deriving DecidableEq, Repr

/-- The `fallback` argument of `run`: a callable (which may return a value or
throw), a plain non-`undefined` value, or `undefined`. -/
inductive Fallback
  | fn (f : Err → Except Err Val)
  | val (v : Val)
  | undef

/-- `_execFallback(fallback, err)`: emit the `fallback` notification first,
then resolve with the callable's outcome, the plain value, or reject with the
original error when the fallback is `undefined`.  Returns the emitted events
together with the settled result. -/
def _execFallback (fallback : Fallback) (err : Err) : List Event × Except Err Val :=
  ([Event.fallbackEv err],
    match fallback with
    | .fn f => f err
    | .val v => .ok v
    | .undef => .error err)

/-- Abstraction of a single `_execCommand` execution's resolution: the command
settled in time with a value, settled in time with an error (asynchronous
rejection or synchronous throw), or the timeout alarm fired first.  The
first-event-wins race justifying this abstraction is modelled in full by
`execStep` below. -/
inductive Outcome
  | success (v : Val)
  | failure (e : Nat)
  | timeout
  deriving DecidableEq, Repr

def bumpTimeouts (c : Counters) : Counters := { c with timeouts := c.timeouts + 1 }

def bumpFailures (c : Counters) : Counters := { c with failures := c.failures + 1 }

def bumpSuccesses (c : Counters) : Counters := { c with successes := c.successes + 1 }

def bumpShortCircuits (c : Counters) : Counters :=
  { c with shortCircuits := c.shortCircuits + 1 }

/-- What one `run(command, fallback)` call produced: the breaker afterwards,
whether the command was invoked, the notifications emitted, and the settled
result (`none` models `run` returning `undefined` rather than a promise). -/
structure RunResult where
  breaker : Breaker
  invoked : Bool
  events : List Event
  result : Option (Except Err Val)

/-- `run(command, fallback)` with the command's would-be execution outcome made
explicit.  In `CLOSE` the command runs; an error path increments its counter
(inside `_execCommand`), then calls `_updateState`, then resolves the fallback.
In `OPEN` or `HALF_OPEN_VERIFY` it short-circuits.  In `HALF_OPEN` it flips to
`HALF_OPEN_VERIFY` and runs the verification command, routing to `CLOSE` or
`OPEN`.  With a `null` state (TypeScript post-`destroy`) it falls through and
returns `undefined`. -/
def run (b : Breaker) (cmd : Outcome) (fallback : Fallback) : RunResult :=
  match b.state with
  | some St.CLOSE =>
    match cmd with
    | .success v =>
        ⟨{ b with counters := bumpSuccesses b.counters }, true, [], some (.ok v)⟩
    | .failure e =>
        let b1 := _updateState { b with counters := bumpFailures b.counters }
        let fb := _execFallback fallback (.cmdErr e)
        ⟨b1, true, fb.1, some fb.2⟩
    | .timeout =>
        let b1 := _updateState { b with counters := bumpTimeouts b.counters }
        let fb := _execFallback fallback .timeoutErr
        ⟨b1, true, fb.1, some fb.2⟩
  | some St.OPEN | some St.HALF_OPEN_VERIFY =>
    let fb := _execFallback fallback .openErr
    ⟨{ b with counters := bumpShortCircuits b.counters }, false, fb.1, some fb.2⟩
  | some St.HALF_OPEN =>
    let bv : Breaker := { b with state := some St.HALF_OPEN_VERIFY }
    match cmd with
    | .success v =>
        ⟨_transitToClose { bv with counters := bumpSuccesses bv.counters },
          true, [], some (.ok v)⟩
    | .failure e =>
        let b1 := _transitToOpen { bv with counters := bumpFailures bv.counters }
        let fb := _execFallback fallback (.cmdErr e)
        ⟨b1, true, fb.1, some fb.2⟩
    | .timeout =>
        let b1 := _transitToOpen { bv with counters := bumpTimeouts bv.counters }
        let fb := _execFallback fallback .timeoutErr
        ⟨b1, true, fb.1, some fb.2⟩
  | none => ⟨b, false, [], none⟩

/-- C2: while the state is `OPEN` or `HALF_OPEN_VERIFY`, `run` never invokes
the command, increments `shortCircuits` by exactly one (touching nothing else
on the breaker), and resolves via the fallback path applied to the open-circuit
error. -/
theorem run_short_circuit (b : Breaker) (cmd : Outcome) (fallback : Fallback)
    (h : b.state = some St.OPEN ∨ b.state = some St.HALF_OPEN_VERIFY) :
    (run b cmd fallback).invoked = false ∧
    (run b cmd fallback).breaker =
      { b with counters := bumpShortCircuits b.counters } ∧
    (run b cmd fallback).events = (_execFallback fallback Err.openErr).1 ∧
    (run b cmd fallback).result = some (_execFallback fallback Err.openErr).2 := by
  rcases h with h | h <;> simp [run, h]

/-- Witness for C2 at a concrete `OPEN` breaker with an `undefined` fallback:
the call rejects with the open-circuit error and only bumps `shortCircuits`. -/
theorem run_short_circuit_witness :
    (run
      { windowDuration := 10000, timeoutDuration := 300,
        errorThreshold := 50, volumeThreshold := 5,
        state := some St.OPEN, context := none,
        counters := _newCounters,
        resetTimerOn := true, nextTryTimerOn := true,
        trying := true, listeners := true }
      (Outcome.success 3) Fallback.undef).invoked = false ∧
    (run
      { windowDuration := 10000, timeoutDuration := 300,
        errorThreshold := 50, volumeThreshold := 5,
        state := some St.OPEN, context := none,
        counters := _newCounters,
        resetTimerOn := true, nextTryTimerOn := true,
        trying := true, listeners := true }
      (Outcome.success 3) Fallback.undef).result = some (.error Err.openErr) := by
  have h := run_short_circuit
    { windowDuration := 10000, timeoutDuration := 300,
      errorThreshold := 50, volumeThreshold := 5,
      state := some St.OPEN, context := none,
      counters := _newCounters,
      resetTimerOn := true, nextTryTimerOn := true,
      trying := true, listeners := true }
    (Outcome.success 3) Fallback.undef (Or.inl rfl)
  exact ⟨h.1, h.2.2.2⟩

/-- C5: `_execFallback` emits the `fallback` notification carrying the
triggering error (and nothing else) before resolving; a callable fallback's
outcome is returned as-is (its throw becomes a rejection), a plain value
resolves, and an `undefined` fallback rejects with the original error. -/
theorem execFallback_spec (fallback : Fallback) (e : Err) :
    (_execFallback fallback e).1 = [Event.fallbackEv e] ∧
    (∀ f, fallback = Fallback.fn f → (_execFallback fallback e).2 = f e) ∧
    (∀ v, fallback = Fallback.val v → (_execFallback fallback e).2 = .ok v) ∧
    (fallback = Fallback.undef → (_execFallback fallback e).2 = .error e) := by
  refine ⟨rfl, ?_, ?_, ?_⟩
  · intro f hf; subst hf; rfl
  · intro v hv; subst hv; rfl
  · intro hu; subst hu; rfl

/-- Witness for C5 at a callable fallback that throws: the thrown error is
propagated as the rejection, after the `fallback` notification. -/
theorem execFallback_spec_witness :
    (_execFallback (Fallback.fn fun _ => .error (Err.cmdErr 9)) Err.timeoutErr).1 =
      [Event.fallbackEv Err.timeoutErr] ∧
    (_execFallback (Fallback.fn fun _ => .error (Err.cmdErr 9)) Err.timeoutErr).2 =
      .error (Err.cmdErr 9) := by
  have h := execFallback_spec (Fallback.fn fun _ => .error (Err.cmdErr 9)) Err.timeoutErr
  exact ⟨h.1, h.2.1 _ rfl⟩

/-- The local state of one `_execCommand` invocation: whether the `timmer`
variable is still set (the single-fire guard of `checkTimmer`), the breaker
counters, and the promise's resolution once settled. -/
structure ExecSt where
  timerActive : Bool
  counters : Counters
  resolution : Option (Except Err Val)

/-- The asynchronous completions that can reach one `_execCommand` invocation:
the timeout alarm fires, the command's promise resolves or rejects, or the
command throws synchronously. -/
inductive ExecEv
  | timeoutFire
  | resolveEv (v : Val)
  | rejectEv (e : Nat)
  | syncThrow (e : Nat)
  deriving DecidableEq, Repr

/-- One completion hitting `_execCommand`'s `checkTimmer` guard: if `timmer`
has already been cleared the completion is discarded; otherwise the timer is
cleared, the matching counter incremented, and the promise settled.  A
synchronous throw goes through `Promise.reject(err).catch(...)`, i.e. the same
handler as an asynchronous rejection. -/
def execStep (s : ExecSt) (ev : ExecEv) : ExecSt :=
  if s.timerActive = false then s
  else
    match ev with
    | .timeoutFire =>
        ⟨false, bumpTimeouts s.counters, some (.error Err.timeoutErr)⟩
    | .resolveEv v =>
        ⟨false, bumpSuccesses s.counters, some (.ok v)⟩
    | .rejectEv e =>
        ⟨false, bumpFailures s.counters, some (.error (Err.cmdErr e))⟩
    | .syncThrow e =>
        ⟨false, bumpFailures s.counters, some (.error (Err.cmdErr e))⟩

theorem execStep_inactive (s : ExecSt) (ev : ExecEv)
    (h : s.timerActive = false) : execStep s ev = s := by
  unfold execStep
  rw [if_pos h]

theorem execStep_foldl_inactive (s : ExecSt) (evs : List ExecEv)
    (h : s.timerActive = false) : evs.foldl execStep s = s := by
  induction evs with
  | nil => rfl
  | cons ev evs ih =>
      simp only [List.foldl_cons, execStep_inactive s ev h]
      exact ih

/-- C4: for one `_execCommand` invocation (fresh state: timer armed, no
resolution), whichever completion arrives first fully determines the outcome —
it increments exactly one of `timeouts`/`failures`/`successes` and settles the
promise once (a timeout with the distinguishable timeout error, a synchronous
throw exactly like an asynchronous rejection) — and every later completion is
silently discarded: the fold over any tail of events changes nothing. -/
theorem execCommand_first_event_wins (c : Counters) (ev : ExecEv)
    (evs : List ExecEv) :
    ((ev :: evs).foldl execStep ⟨true, c, none⟩ = execStep ⟨true, c, none⟩ ev) ∧
    (ev = ExecEv.timeoutFire →
      execStep ⟨true, c, none⟩ ev = ⟨false, bumpTimeouts c, some (.error Err.timeoutErr)⟩) ∧
    (∀ v, ev = ExecEv.resolveEv v →
      execStep ⟨true, c, none⟩ ev = ⟨false, bumpSuccesses c, some (.ok v)⟩) ∧
    (∀ e, ev = ExecEv.rejectEv e ∨ ev = ExecEv.syncThrow e →
      execStep ⟨true, c, none⟩ ev =
        ⟨false, bumpFailures c, some (.error (Err.cmdErr e))⟩) := by
  refine ⟨?_, ?_, ?_, ?_⟩
  · have hact : (execStep ⟨true, c, none⟩ ev).timerActive = false := by
      cases ev <;> rfl
    simp only [List.foldl_cons]
    exact execStep_foldl_inactive _ evs hact
  · intro h; subst h; rfl
  · intro v h; subst h; rfl
  · intro e h; rcases h with h | h <;> subst h <;> rfl

/-- Witness for C4: a timeout followed by a late resolution and a late
rejection leaves exactly one `timeouts` increment and the timeout error. -/
theorem execCommand_first_event_wins_witness :
    ([ExecEv.timeoutFire, ExecEv.resolveEv 5, ExecEv.rejectEv 6].foldl execStep
        ⟨true, _newCounters, none⟩ =
      ⟨false, bumpTimeouts _newCounters, some (.error Err.timeoutErr)⟩) := by
  have h := execCommand_first_event_wins _newCounters ExecEv.timeoutFire
    [ExecEv.resolveEv 5, ExecEv.rejectEv 6]
  rw [h.1]
  exact h.2.1 rfl

/-- How `run`'s synchronous dispatch phase classified the call. -/
inductive DispatchKind
  | execClosed
  | shortCircuit
  | execVerify
  | undef
  deriving DecidableEq, Repr

/-- The synchronous part of `run` before any command settles: in `CLOSE` it
starts a normal execution; in `OPEN`/`HALF_OPEN_VERIFY` it bumps
`shortCircuits`; in `HALF_OPEN` it flips the state to `HALF_OPEN_VERIFY` and
starts the verification execution; with a `null` state it returns `undefined`. -/
def dispatchRun (b : Breaker) : Breaker × DispatchKind :=
  match b.state with
  | some St.CLOSE => (b, .execClosed)
  | some St.OPEN | some St.HALF_OPEN_VERIFY =>
      ({ b with counters := bumpShortCircuits b.counters }, .shortCircuit)
  | some St.HALF_OPEN => ({ b with state := some St.HALF_OPEN_VERIFY }, .execVerify)
  | none => (b, .undef)

/-- Completion of the verification command dispatched from `HALF_OPEN`: the
counter increment from `_execCommand` followed by `_transitToClose` on success
and `_transitToOpen` on failure or timeout. -/
def verifyComplete (b : Breaker) (o : Outcome) : Breaker :=
  match o with
  | .success _ => _transitToClose { b with counters := bumpSuccesses b.counters }
  | .failure _ => _transitToOpen { b with counters := bumpFailures b.counters }
  | .timeout => _transitToOpen { b with counters := bumpTimeouts b.counters }

/-- Iterated dispatch: the breaker after `k` further `run` calls have gone
through their synchronous dispatch phase. -/
def dispatchIter (b : Breaker) (k : Nat) : Breaker :=
  (fun x => (dispatchRun x).1)^[k] b

theorem dispatchRun_verify_preserves (b : Breaker)
    (h : b.state = some St.HALF_OPEN_VERIFY) :
    (dispatchRun b).1.state = some St.HALF_OPEN_VERIFY ∧
    (dispatchRun b).2 = DispatchKind.shortCircuit := by
  simp [dispatchRun, h]

theorem dispatchIter_verify_preserves (b : Breaker) (k : Nat)
    (h : b.state = some St.HALF_OPEN_VERIFY) :
    (dispatchIter b k).state = some St.HALF_OPEN_VERIFY := by
  induction k generalizing b with
  | zero => exact h
  | succ k ih =>
      rw [dispatchIter, Function.iterate_succ_apply]
      exact ih _ (dispatchRun_verify_preserves b h).1

/-- C3: from `HALF_OPEN`, the first `run` call flips the state to
`HALF_OPEN_VERIFY` and is the one that executes the command; every later call
during the episode observes `HALF_OPEN_VERIFY` and is dispatched as a
fallback-only short circuit (never invoking its command), so at most one
verification command runs; the verification completion routes to `CLOSE` on
success and to `OPEN` on failure or timeout. -/
theorem half_open_single_verification (b : Breaker)
    (h : b.state = some St.HALF_OPEN) (k : Nat) (v : Val) (e : Nat)
    (cmd : Outcome) (fallback : Fallback) :
    (dispatchRun b).2 = DispatchKind.execVerify ∧
    (dispatchRun b).1.state = some St.HALF_OPEN_VERIFY ∧
    (dispatchRun (dispatchIter (dispatchRun b).1 k)).2 =
      DispatchKind.shortCircuit ∧
    (run (dispatchIter (dispatchRun b).1 k) cmd fallback).invoked = false ∧
    (verifyComplete (dispatchIter (dispatchRun b).1 k) (.success v)).state =
      some St.CLOSE ∧
    (verifyComplete (dispatchIter (dispatchRun b).1 k) (.failure e)).state =
      some St.OPEN ∧
    (verifyComplete (dispatchIter (dispatchRun b).1 k) .timeout).state =
      some St.OPEN := by
  have h1 : (dispatchRun b).1.state = some St.HALF_OPEN_VERIFY := by
    simp [dispatchRun, h]
  have hk := dispatchIter_verify_preserves (dispatchRun b).1 k h1
  refine ⟨by simp [dispatchRun, h], h1,
    (dispatchRun_verify_preserves _ hk).2, ?_, ?_, ?_, ?_⟩
  · simp [run, hk]
  · rfl
  · exact _transitToOpen_state _
  · exact _transitToOpen_state _

/-- Witness for C3 at a concrete `HALF_OPEN` breaker with two later calls. -/
theorem half_open_single_verification_witness :
    (dispatchRun
      { windowDuration := 10000, timeoutDuration := 300,
        errorThreshold := 50, volumeThreshold := 5,
        state := some St.HALF_OPEN, context := some 4,
        counters := _newCounters,
        resetTimerOn := true, nextTryTimerOn := false,
        trying := false, listeners := true }).2 = DispatchKind.execVerify ∧
    (dispatchRun (dispatchIter (dispatchRun
      { windowDuration := 10000, timeoutDuration := 300,
        errorThreshold := 50, volumeThreshold := 5,
        state := some St.HALF_OPEN, context := some 4,
        counters := _newCounters,
        resetTimerOn := true, nextTryTimerOn := false,
        trying := false, listeners := true }).1 2)).2 =
      DispatchKind.shortCircuit := by
  have h := half_open_single_verification
    { windowDuration := 10000, timeoutDuration := 300,
      errorThreshold := 50, volumeThreshold := 5,
      state := some St.HALF_OPEN, context := some 4,
      counters := _newCounters,
      resetTimerOn := true, nextTryTimerOn := false,
      trying := false, listeners := true }
    rfl 2 0 0 (Outcome.success 0) Fallback.undef
  exact ⟨h.1, h.2.2.1⟩

/-- The constructor's options object; `none` models an absent key. -/
structure Opts where
  windowDuration : Option Nat := none
  timeoutDuration : Option Nat := none
  errorThreshold : Option Nat := none
  volumeThreshold : Option Nat := none

/-- The JavaScript merge `opts.key || default` (and the TypeScript
`if (opts[key] && opts[key] !== undefined)`): a falsy supplied value — `0` for
a number — is replaced by the default. -/
def orDefault (o : Option Nat) (d : Nat) : Nat :=
  match o with
  | some v => if v = 0 then d else v
  | none => d

/-- Completion of an in-flight `_tryTransitToHalfOpen` build whose builder
resolved: clear the single-flight flag, store the context, set state to
`HALF_OPEN` (no guard of any kind). -/
def buildSucceeded (b : Breaker) (ctx : Ctx) : Breaker :=
  { b with trying := false, context := some ctx, state := some St.HALF_OPEN }

/-- Completion of an in-flight build whose builder rejected: clear the
single-flight flag only. -/
def buildFailed (b : Breaker) : Breaker :=
  { b with trying := false }

/-- The synchronous part of `_tryTransitToHalfOpen()`: a no-op when a build is
already in flight or the state is not `OPEN`; otherwise starts a build. -/
def _tryTransitToHalfOpen (b : Breaker) : Breaker :=
  if b.trying ∨ b.state ≠ some St.OPEN then b else { b with trying := true }

/-- The probe timer firing: clear the handle, try to start a build, reschedule. -/
def probeTimerFire (b : Breaker) : Breaker :=
  _scheduleTryTransitToHalfOpen
    (_tryTransitToHalfOpen { b with nextTryTimerOn := false })

/-- One tick of `_startResetTicker`'s interval: `_updateState()` first, then
`counters = _newCounters()` (evaluate-then-reset). -/
def resetTickerFire (b : Breaker) : Breaker :=
  let b1 := _updateState b
  { b1 with counters := _newCounters }

/-- `destroy()` in `src/breaker.js`: cancel both timers, clean the context,
detach all listeners.  (The final `this.status = null` writes an otherwise
unused property, so the `state` field is left untouched.) -/
def destroy (b : Breaker) : Breaker :=
  let b1 : Breaker := { b with resetTimerOn := false, nextTryTimerOn := false }
  let b2 := _cleanContext b1
  { b2 with listeners := false }

/-- `destroy()` in the TypeScript source: the same, but it ends with
`this.state = null`. -/
def destroyTS (b : Breaker) : Breaker :=
  let b1 : Breaker := { b with resetTimerOn := false, nextTryTimerOn := false }
  let b2 := _cleanContext b1
  { b2 with listeners := false, state := none }

/-- The constructor: merge the options over the defaults, start in `OPEN` with
a `null` context and fresh counters, immediately start a context build
(`_tryTransitToHalfOpen`), arm the probe timer, and start the reset ticker. -/
def mkBreaker (opts : Opts) : Breaker :=
  let b0 : Breaker :=
    { windowDuration := orDefault opts.windowDuration 10000,
      timeoutDuration := orDefault opts.timeoutDuration 300,
      errorThreshold := orDefault opts.errorThreshold 50,
      volumeThreshold := orDefault opts.volumeThreshold 5,
      state := some St.OPEN, context := none, counters := _newCounters,
      resetTimerOn := false, nextTryTimerOn := false,
      trying := false, listeners := true }
  let b1 := _tryTransitToHalfOpen b0
  let b2 := _scheduleTryTransitToHalfOpen b1
  { b2 with resetTimerOn := true }

/-- C9: a configuration option supplied with the falsy value `0` is silently
replaced by the documented default (10000ms window, 300ms timeout, 50%
error threshold, volume threshold 5), because the constructor merges options
with a truthiness test. -/
theorem falsy_options_use_defaults (opts : Opts) :
    (opts.windowDuration = some 0 → (mkBreaker opts).windowDuration = 10000) ∧
    (opts.timeoutDuration = some 0 → (mkBreaker opts).timeoutDuration = 300) ∧
    (opts.errorThreshold = some 0 → (mkBreaker opts).errorThreshold = 50) ∧
    (opts.volumeThreshold = some 0 → (mkBreaker opts).volumeThreshold = 5) := by
  refine ⟨?_, ?_, ?_, ?_⟩ <;>
    · intro h
      simp only [mkBreaker, _scheduleTryTransitToHalfOpen, _tryTransitToHalfOpen]
      split <;> simp [orDefault, h]

/-- Witness for C9: supplying `0` for every numeric option yields the default
configuration. -/
theorem falsy_options_use_defaults_witness :
    (mkBreaker
      { windowDuration := some 0, timeoutDuration := some 0,
        errorThreshold := some 0, volumeThreshold := some 0 }).windowDuration
        = 10000 ∧
    (mkBreaker
      { windowDuration := some 0, timeoutDuration := some 0,
        errorThreshold := some 0, volumeThreshold := some 0 }).timeoutDuration
        = 300 ∧
    (mkBreaker
      { windowDuration := some 0, timeoutDuration := some 0,
        errorThreshold := some 0, volumeThreshold := some 0 }).errorThreshold
        = 50 ∧
    (mkBreaker
      { windowDuration := some 0, timeoutDuration := some 0,
        errorThreshold := some 0, volumeThreshold := some 0 }).volumeThreshold
        = 5 := by
  have h := falsy_options_use_defaults
    { windowDuration := some 0, timeoutDuration := some 0,
      errorThreshold := some 0, volumeThreshold := some 0 }
  exact ⟨h.1 rfl, h.2.1 rfl, h.2.2.1 rfl, h.2.2.2 rfl⟩

/-- C10: when the `state` field equals none of the four states (the TypeScript
`destroy` sets it to `null`), `run` falls off the end of its dispatch and
returns `undefined` rather than a promise: the command is not executed, no
fallback runs, no notification is emitted, and the breaker (counters included)
is unchanged. -/
theorem run_null_state_returns_undefined (b : Breaker) (cmd : Outcome)
    (fallback : Fallback) (h : b.state = none) :
    (run b cmd fallback).result = none ∧
    (run b cmd fallback).invoked = false ∧
    (run b cmd fallback).events = [] ∧
    (run b cmd fallback).breaker = b ∧
    (destroyTS b).state = none := by
  refine ⟨?_, ?_, ?_, ?_, rfl⟩ <;> simp [run, h]

/-- Witness for C10: running after a TypeScript `destroy` of a default breaker
returns `undefined` and changes nothing. -/
theorem run_null_state_returns_undefined_witness :
    (run (destroyTS (mkBreaker {})) (Outcome.success 1) (Fallback.val 2)).result
        = none ∧
    (run (destroyTS (mkBreaker {})) (Outcome.success 1) (Fallback.val 2)).breaker
        = destroyTS (mkBreaker {}) := by
  have h := run_null_state_returns_undefined (destroyTS (mkBreaker {}))
    (Outcome.success 1) (Fallback.val 2) rfl
  exact ⟨h.1, h.2.2.2.1⟩

/-- C7 (code bug): `destroy()` cancels both timers, initiates context cleanup
and detaches listeners, but it does not stop an in-flight context build from
transitioning the breaker afterwards.  A freshly constructed breaker has a
build in flight (`trying`); destroying it and letting the build resolve sets
`state` to `HALF_OPEN` — after a JavaScript `destroy` (which also leaves
`state` untouched, writing `status` instead) and equally after a TypeScript
`destroy` that had set `state` to `null`. -/
theorem destroy_then_build_still_transitions :
    (mkBreaker {}).trying = true ∧
    (destroy (mkBreaker {})).resetTimerOn = false ∧
    (destroy (mkBreaker {})).nextTryTimerOn = false ∧
    (destroy (mkBreaker {})).context = none ∧
    (destroy (mkBreaker {})).listeners = false ∧
    (destroy (mkBreaker {})).state = some St.OPEN ∧
    (buildSucceeded (destroy (mkBreaker {})) 7).state = some St.HALF_OPEN ∧
    (destroyTS (mkBreaker {})).state = none ∧
    (buildSucceeded (destroyTS (mkBreaker {})) 7).state = some St.HALF_OPEN := by
  exact ⟨rfl, rfl, rfl, rfl, rfl, rfl, rfl, rfl, rfl⟩

/-- The breaker after one `run` call whose command would have the given
outcome (the breaker component does not depend on the fallback). -/
def runClosed (b : Breaker) (o : Outcome) : Breaker :=
  (run b o Fallback.undef).breaker

/-- C6: the full cycle `OPEN` → successful build → `HALF_OPEN` → successful
verification → `CLOSE` → any window of completed calls whose counters breach at
the next tick → `OPEN` leaves the breaker with a `null` context and a freshly
zeroed counter set (the tick evaluates the breach, transitions to `OPEN`
cleaning the context, then installs `_newCounters`). -/
theorem round_trip_resets (b0 : Breaker) (ctx : Ctx) (v : Val)
    (os : List Outcome)
    (_h0 : b0.state = some St.OPEN)
    (hclose : (os.foldl runClosed
        (run (buildSucceeded b0 ctx) (Outcome.success v) Fallback.undef).breaker).state
      = some St.CLOSE)
    (hbreach : _overThreshold (os.foldl runClosed
        (run (buildSucceeded b0 ctx) (Outcome.success v) Fallback.undef).breaker)) :
    (buildSucceeded b0 ctx).state = some St.HALF_OPEN ∧
    (run (buildSucceeded b0 ctx) (Outcome.success v) Fallback.undef).breaker.state
      = some St.CLOSE ∧
    (resetTickerFire (os.foldl runClosed
        (run (buildSucceeded b0 ctx) (Outcome.success v) Fallback.undef).breaker)).state
      = some St.OPEN ∧
    (resetTickerFire (os.foldl runClosed
        (run (buildSucceeded b0 ctx) (Outcome.success v) Fallback.undef).breaker)).context
      = none ∧
    (resetTickerFire (os.foldl runClosed
        (run (buildSucceeded b0 ctx) (Outcome.success v) Fallback.undef).breaker)).counters
      = _newCounters := by
  refine ⟨rfl, rfl, ?_, ?_, rfl⟩
  · show (_updateState _).state = some St.OPEN
    unfold _updateState
    rw [if_pos hclose, if_pos hbreach]
    exact _transitToOpen_state _
  · show (_updateState _).context = none
    unfold _updateState
    rw [if_pos hclose, if_pos hbreach]
    exact _transitToOpen_context _

/-- A concrete breaker for the round-trip witness: `CLOSE`-bound thresholds
`volumeThreshold = 3`, `errorThreshold = 49`. -/
def rtStart : Breaker :=
  { windowDuration := 10000, timeoutDuration := 300,
    errorThreshold := 49, volumeThreshold := 3,
    state := some St.OPEN, context := none, counters := _newCounters,
    resetTimerOn := true, nextTryTimerOn := true,
    trying := true, listeners := true }

/-- The breaker reached in the round-trip witness after the verification
success and the window `[failure, failure, success]`: still `CLOSE`, counters
`{0, 2, 2, 0}`, breaching at the next tick (4 > 3 calls, 50% > 49%). -/
def rtWindowEnd : Breaker :=
  [Outcome.failure 0, Outcome.failure 0, Outcome.success 0].foldl runClosed
    (run (buildSucceeded rtStart 1) (Outcome.success 0) Fallback.undef).breaker

/-- Witness for C6: driving the concrete cycle leaves state `OPEN`, `context`
`null` and all four counters zero. -/
theorem round_trip_resets_witness :
    (resetTickerFire rtWindowEnd).state = some St.OPEN ∧
    (resetTickerFire rtWindowEnd).context = none ∧
    (resetTickerFire rtWindowEnd).counters = _newCounters := by
  have hval : rtWindowEnd =
      { windowDuration := 10000, timeoutDuration := 300,
        errorThreshold := 49, volumeThreshold := 3,
        state := some St.CLOSE, context := some 1,
        counters := { timeouts := 0, failures := 2, successes := 2, shortCircuits := 0 },
        resetTimerOn := true, nextTryTimerOn := true,
        trying := false, listeners := true } := by decide
  have hbreach : _overThreshold rtWindowEnd := by
    rw [hval]
    unfold _overThreshold _calculateMetrics
    refine ⟨by norm_num, by norm_num⟩
  have h := round_trip_resets rtStart 1 0
    [Outcome.failure 0, Outcome.failure 0, Outcome.success 0] rfl
    (by rw [show (([Outcome.failure 0, Outcome.failure 0, Outcome.success 0].foldl
        runClosed
        (run (buildSucceeded rtStart 1) (Outcome.success 0) Fallback.undef).breaker))
        = rtWindowEnd from rfl, hval])
    hbreach
  exact ⟨h.2.2.1, h.2.2.2.1, h.2.2.2.2⟩

/-- The asynchronous completions and caller actions that can hit a breaker:
the in-flight context build settling, the probe timer and reset ticker firing,
a `run` call's synchronous dispatch, a dispatched command completing (from a
`CLOSE` dispatch or the `HALF_OPEN` verification), and the two `destroy`
variants. -/
inductive BEv
  | buildOk (ctx : Ctx)
  | buildErr
  | probeFire
  | tick
  | dispatch
  | closedDone (o : Outcome)
  | verifyDone (o : Outcome)
  | destroyEv
  | destroyTSEv

/-- Completion of a command dispatched while `CLOSE`: the `_execCommand`
counter increment, then `_updateState` on the error paths. -/
def closedComplete (b : Breaker) (o : Outcome) : Breaker :=
  match o with
  | .success _ => { b with counters := bumpSuccesses b.counters }
  | .failure _ => _updateState { b with counters := bumpFailures b.counters }
  | .timeout => _updateState { b with counters := bumpTimeouts b.counters }

/-- One asynchronous completion applied to the breaker. -/
def step (b : Breaker) (ev : BEv) : Breaker :=
  match ev with
  | .buildOk ctx => buildSucceeded b ctx
  | .buildErr => buildFailed b
  | .probeFire => probeTimerFire b
  | .tick => resetTickerFire b
  | .dispatch => (dispatchRun b).1
  | .closedDone o => closedComplete b o
  | .verifyDone o => verifyComplete b o
  | .destroyEv => destroy b
  | .destroyTSEv => destroyTS b

theorem _tryTransitToHalfOpen_state (b : Breaker) :
    (_tryTransitToHalfOpen b).state = b.state := by
  unfold _tryTransitToHalfOpen
  split <;> rfl

theorem _tryTransitToHalfOpen_context (b : Breaker) :
    (_tryTransitToHalfOpen b).context = b.context := by
  unfold _tryTransitToHalfOpen
  split <;> rfl

theorem _updateState_inv (b : Breaker)
    (h : b.state = some St.OPEN → b.context = none) :
    (_updateState b).state = some St.OPEN → (_updateState b).context = none := by
  unfold _updateState
  split
  · split
    · intro _
      exact _transitToOpen_context _
    · exact h
  · exact h

theorem step_inv (b : Breaker) (ev : BEv)
    (h : b.state = some St.OPEN → b.context = none) :
    (step b ev).state = some St.OPEN → (step b ev).context = none := by
  cases ev with
  | buildOk ctx =>
      intro hst
      simp [step, buildSucceeded] at hst
  | buildErr => exact h
  | probeFire =>
      have hs : (probeTimerFire b).state = b.state := by
        unfold probeTimerFire
        rw [_scheduleTryTransitToHalfOpen_state, _tryTransitToHalfOpen_state]
      have hc : (probeTimerFire b).context = b.context := by
        unfold probeTimerFire
        rw [_scheduleTryTransitToHalfOpen_context, _tryTransitToHalfOpen_context]
      intro hst
      show (probeTimerFire b).context = none
      rw [hc]
      exact h (hs ▸ hst)
  | tick =>
      intro hst
      exact _updateState_inv b h hst
  | dispatch =>
      intro hst
      rcases hb : b.state with _ | st
      · rw [show step b BEv.dispatch = b from by simp [step, dispatchRun, hb]] at hst ⊢
        exact h hst
      · cases st with
        | OPEN =>
            rw [show step b BEv.dispatch =
                { b with counters := bumpShortCircuits b.counters } from
              by simp [step, dispatchRun, hb]] at hst ⊢
            exact h hst
        | HALF_OPEN =>
            rw [show (step b BEv.dispatch).state = some St.HALF_OPEN_VERIFY from
              by simp [step, dispatchRun, hb]] at hst
            exact absurd hst (by simp)
        | HALF_OPEN_VERIFY =>
            rw [show step b BEv.dispatch =
                { b with counters := bumpShortCircuits b.counters } from
              by simp [step, dispatchRun, hb]] at hst ⊢
            exact h hst
        | CLOSE =>
            rw [show step b BEv.dispatch = b from by simp [step, dispatchRun, hb]] at hst ⊢
            exact h hst
  | closedDone o =>
      cases o with
      | success v => exact h
      | failure e => exact _updateState_inv _ h
      | timeout => exact _updateState_inv _ h
  | verifyDone o =>
      cases o with
      | success v =>
          intro hst
          simp [step, verifyComplete, _transitToClose] at hst
      | failure e =>
          intro _
          exact _transitToOpen_context _
      | timeout =>
          intro _
          exact _transitToOpen_context _
  | destroyEv =>
      intro _
      rfl
  | destroyTSEv =>
      intro _
      rfl

theorem foldl_step_inv (evs : List BEv) (b : Breaker)
    (h : b.state = some St.OPEN → b.context = none) :
    (evs.foldl step b).state = some St.OPEN →
      (evs.foldl step b).context = none := by
  induction evs generalizing b with
  | nil => exact h
  | cons ev evs ih => exact ih _ (step_inv b ev h)

theorem mkBreaker_context (opts : Opts) : (mkBreaker opts).context = none := by
  simp only [mkBreaker, _scheduleTryTransitToHalfOpen, _tryTransitToHalfOpen]
  split <;> simp

/-- C8: in every state reachable from construction through any sequence of
completed operations, the context is non-null only while the state is one of
`HALF_OPEN`, `HALF_OPEN_VERIFY`, `CLOSE` (equivalently: in `OPEN` the context
is always `null`); moreover the successful build stores the context as it
leaves `OPEN`, and every transition back into `OPEN` clears it. -/
theorem context_null_in_open (opts : Opts) (evs : List BEv) (b : Breaker)
    (ctx : Ctx) :
    ((evs.foldl step (mkBreaker opts)).state = some St.OPEN →
      (evs.foldl step (mkBreaker opts)).context = none) ∧
    (step b (BEv.buildOk ctx)).context = some ctx ∧
    (_transitToOpen b).context = none := by
  refine ⟨?_, rfl, _transitToOpen_context b⟩
  exact foldl_step_inv evs (mkBreaker opts) (fun _ => mkBreaker_context opts)

/-- Witness for C8: a default breaker whose first `run` short-circuits is in
`OPEN` with a `null` context, and a build completion stores the context. -/
theorem context_null_in_open_witness :
    ([BEv.dispatch].foldl step (mkBreaker {})).state = some St.OPEN ∧
    ([BEv.dispatch].foldl step (mkBreaker {})).context = none ∧
    (step (mkBreaker {}) (BEv.buildOk 3)).context = some 3 := by
  have h := context_null_in_open {} [BEv.dispatch] (mkBreaker {}) 3
  exact ⟨by decide, h.1 (by decide), h.2.1⟩

end CCB
